import Mathlib

/-!
Verification of the Modelia AI Studio generation pipeline.

This file gives a shallow embedding, in Lean 4, of the core of the
repository: the request validator and mock generation endpoint
(`src/lib/api.ts`), the retry loop with exponential backoff and jitter
(`generateImageWithRetry`), the request manager (`RequestManager`), the
localStorage-backed history store (`src/lib/storage.ts`) and the
generation slice of the Zustand store (`src/lib/store.ts`).

Modelling conventions:
* `Math.random()` results are passed in explicitly as rationals in `[0,1)`;
  each call site of `Math.random()` in the source has its own named draw.
* Timestamps (`new Date().toISOString()`) are passed in as opaque strings.
* Promise-returning functions become pure functions returning `Except`;
  a thrown JS exception is the `.error` case.
* JavaScript string primitives are re-implemented over `List Char` so that
  concrete instances reduce in the kernel: `jsTrim` models
  `String.prototype.trim`, `jsStartsWith` models `String.prototype.startsWith`.
* `localStorage` is a key-value map together with an availability flag and
  a write-failure flag (quota exceeded); `Map` objects are association lists.
-/

set_option maxRecDepth 8000

/-- Model of JavaScript `String.prototype.trim`: drop whitespace from both
ends. Implemented over the character list so it reduces in the kernel. -/
def jsTrim (s : String) : String :=
  ⟨((s.data.dropWhile Char.isWhitespace).reverse.dropWhile Char.isWhitespace).reverse⟩

/-- List-level prefix test used by `jsStartsWith`. -/
def startsWithList : List Char → List Char → Bool
  | [], _ => true
  | _, [] => false
  | p :: ps, c :: cs => p = c && startsWithList ps cs

/-- Model of JavaScript `s.startsWith(pre)`. -/
def jsStartsWith (s pre : String) : Bool := startsWithList pre.data s.data

-- =====================================
-- Data model (src/types/index.ts)
-- =====================================

/-- `GenerationRequest` from `src/types/index.ts` (styles are kept as raw
strings, as the runtime validator `isValidStyle` checks them dynamically). -/
structure GenerationRequest where
  imageDataUrl : String
  prompt : String
  style : String
  requestId : Option String
deriving DecidableEq, Repr

/-- `GenerationResponse` from `src/types/index.ts`. -/
structure GenerationResponse where
  id : String
  imageUrl : String
  prompt : String
  style : String
  createdAt : String
  processingTime : Option ℤ
deriving DecidableEq, Repr

/-- `ApiError` from `src/types/index.ts` (also the shape of a constructed
`ApiErrorClass`, whose `name` is always `"ApiError"`). -/
structure ApiError where
  name : String
  message : String
  code : String
  retryable : Bool
  timestamp : String
deriving DecidableEq, Repr

/-- Constructor of `ApiErrorClass` (`src/types/index.ts`): `name` is set to
`"ApiError"`, the timestamp is the construction time. -/
def apiErrorClass (message code : String) (retryable : Bool) (now : String) : ApiError :=
  { name := "ApiError", message := message, code := code,
    retryable := retryable, timestamp := now }

/-- `RetryConfig` from `src/types/index.ts`; delays in milliseconds. -/
structure RetryConfig where
  maxAttempts : ℕ
  baseDelay : ℚ
  maxDelay : ℚ
  backoffMultiplier : ℚ
deriving DecidableEq, Repr

/-- `RETRY_CONFIG` default from `src/types/index.ts`. -/
def RETRY_CONFIG : RetryConfig :=
  { maxAttempts := 3, baseDelay := 1000, maxDelay := 8000, backoffMultiplier := 2 }

/-- `MAX_HISTORY_ITEMS` from `src/types/index.ts`. -/
def MAX_HISTORY_ITEMS : ℕ := 5

/-- `HistoryItem` from `src/types/index.ts`: a `GenerationResponse` plus the
optional `thumbnail` and `isFavorite` fields (`tags` is never used by the
store operations and is omitted). -/
structure HistoryItem where
  id : String
  imageUrl : String
  prompt : String
  style : String
  createdAt : String
  processingTime : Option ℤ
  thumbnail : Option String
  isFavorite : Option Bool
deriving DecidableEq, Repr

-- =====================================
-- Mock API configuration (src/lib/api.ts)
-- =====================================

/-- `ERROR_RATE = 0.2` from `src/lib/api.ts`. -/
def ERROR_RATE : ℚ := 1/5

/-- `MIN_PROCESSING_TIME = 1000` from `src/lib/api.ts`. -/
def MIN_PROCESSING_TIME : ℚ := 1000

/-- `MAX_PROCESSING_TIME = 2000` from `src/lib/api.ts`. -/
def MAX_PROCESSING_TIME : ℚ := 2000

/-- `MOCK_GENERATED_IMAGES` from `src/lib/utils.ts`. -/
def MOCK_GENERATED_IMAGES : List String :=
  [ "https://images.unsplash.com/photo-1469334031218-e382a71b716b?w=800&h=1200&fit=crop&crop=center"
  , "https://images.unsplash.com/photo-1515886657613-9f3515b0c78f?w=800&h=1200&fit=crop&crop=center"
  , "https://images.unsplash.com/photo-1506629905607-d52b3e5eb4bb?w=800&h=1200&fit=crop&crop=center"
  , "https://images.unsplash.com/photo-1558618666-fcd25c85cd64?w=800&h=1200&fit=crop&crop=center"
  , "https://images.unsplash.com/photo-1544966503-7e3ac882b2f7?w=800&h=1200&fit=crop&crop=center" ]

/-- `randomChoice` from `src/lib/utils.ts`: `array[Math.floor(Math.random() *
array.length)]`; the random draw `r` is passed explicitly. -/
def randomChoice (array : List String) (r : ℚ) : String :=
  array.getD (⌊r * array.length⌋).toNat ""

/-- `shouldSimulateError` from `src/lib/api.ts`: `Math.random() < ERROR_RATE`. -/
def shouldSimulateError (r : ℚ) : Bool := r < ERROR_RATE

/-- The fixed pool of human-readable overload messages in `createMockError`. -/
def errorMessages : List String :=
  [ "Model overloaded"
  , "Server temporarily unavailable"
  , "Generation queue is full"
  , "Processing capacity exceeded" ]

/-- `createMockError` from `src/lib/api.ts`. -/
def createMockError (msgRand : ℚ) (now : String) : ApiError :=
  { name := "ApiError"
  , message := randomChoice errorMessages msgRand
  , code := "MODEL_OVERLOADED"
  , retryable := true
  , timestamp := now }

/-- `Math.floor(Math.random() * (MAX_PROCESSING_TIME - MIN_PROCESSING_TIME + 1)
+ MIN_PROCESSING_TIME)`, the processing-delay computation appearing both in
`generateImage` and in `createMockResponse` (two independent draws). -/
def mockProcessingTime (r : ℚ) : ℤ :=
  ⌊r * (MAX_PROCESSING_TIME - MIN_PROCESSING_TIME + 1) + MIN_PROCESSING_TIME⌋

-- =====================================
-- Request validation (src/lib/api.ts)
-- =====================================

/-- `isValidStyle` from `src/lib/api.ts`. -/
def isValidStyle (style : String) : Bool :=
  ["editorial", "streetwear", "vintage", "luxury", "casual"].contains style

/-- `validateGenerationRequest` from `src/lib/api.ts`, checks in source
order; `now` is the clock value used for the error timestamps. A falsy
string in JS is the empty string, so `!request.imageDataUrl` is
`imageDataUrl = ""` and `!request.prompt` is `prompt = ""`. -/
def validateGenerationRequest (request : GenerationRequest) (now : String) :
    Except ApiError Unit :=
  if request.imageDataUrl = "" then
    .error (apiErrorClass "Image data URL is required" "VALIDATION_ERROR" false now)
  else if request.prompt = "" ∨ (jsTrim request.prompt).length = 0 then
    .error (apiErrorClass "Prompt is required" "VALIDATION_ERROR" false now)
  else if (jsTrim request.prompt).length > 500 then
    .error (apiErrorClass "Prompt is too long (max 500 characters)" "VALIDATION_ERROR" false now)
  else if !isValidStyle request.style then
    .error (apiErrorClass "Invalid style option" "VALIDATION_ERROR" false now)
  else if !jsStartsWith request.imageDataUrl "data:image/" then
    .error (apiErrorClass "Invalid image data URL format" "VALIDATION_ERROR" false now)
  else
    .ok ()

-- =====================================
-- Retry policy (src/lib/api.ts, lines 134-146)
-- =====================================

/-- The un-jittered backoff: `Math.min(config.baseDelay *
Math.pow(config.backoffMultiplier, attempt - 1), config.maxDelay)`. -/
def backoffDelay (config : RetryConfig) (attempt : ℕ) : ℚ :=
  min (config.baseDelay * config.backoffMultiplier ^ (attempt - 1)) config.maxDelay

/-- The jittered delay actually awaited: jitter is `backoffDelay * 0.25 *
(Math.random() * 2 - 1)` and the result is `Math.max(0, backoffDelay +
jitter)`; `r` is the jitter draw. -/
def delayWithJitter (config : RetryConfig) (attempt : ℕ) (r : ℚ) : ℚ :=
  let b := backoffDelay config attempt
  let jitter := b * (1/4) * (r * 2 - 1)
  max 0 (b + jitter)

-- =====================================
-- Mock generation endpoint (src/lib/api.ts)
-- =====================================

/-- A thrown JavaScript value: either a structured `ApiError` object (all
five fields present, so `isApiError` recognises it) or a plain `Error`,
which carries only a message. -/
inductive JsError where
  | api (e : ApiError)
  | plain (message : String)
deriving DecidableEq, Repr

/-- `isApiError` from `src/lib/api.ts`: a plain `Error` lacks the `code`,
`retryable` and `timestamp` fields. -/
def isApiError : JsError → Bool
  | .api _ => true
  | .plain _ => false

/-- All the nondeterminism consumed by one attempt of the endpoint call:
each `Math.random()` call site has its own draw, the abort signal is
sampled at the two points where the code reads it, and `now`/`newId` stand
for the clock and `randomId()`. -/
structure AttemptEnv where
  delayRand : ℚ
  abortedAfterDelay : Bool
  errorRand : ℚ
  msgRand : ℚ
  respTimeRand : ℚ
  urlRand : ℚ
  jitterRand : ℚ
  abortedAtCatch : Bool
  newId : String
  now : String
deriving Repr

/-- `createMockResponse` from `src/lib/api.ts`: note that it draws a fresh
`processingTime` (from `env.respTimeRand`), independent from the delay the
call waited for (`env.delayRand`). -/
def createMockResponse (request : GenerationRequest) (env : AttemptEnv) :
    GenerationResponse :=
  { id := env.newId
  , imageUrl := randomChoice MOCK_GENERATED_IMAGES env.urlRand
  , prompt := request.prompt
  , style := request.style
  , createdAt := env.now
  , processingTime := some (mockProcessingTime env.respTimeRand) }

/-- The simulated network delay actually awaited by `generateImage`
(lines 80-84 of `src/lib/api.ts`). -/
def awaitedProcessingTime (env : AttemptEnv) : ℤ := mockProcessingTime env.delayRand

/-- `generateImage` from `src/lib/api.ts`: validate, wait the simulated
delay, check the abort signal, maybe fail with a retryable mock error,
otherwise succeed. -/
def generateImage (request : GenerationRequest) (env : AttemptEnv) :
    Except JsError GenerationResponse :=
  match validateGenerationRequest request env.now with
  | .error e => .error (.api e)
  | .ok _ =>
    if env.abortedAfterDelay then .error (.plain "Request aborted")
    else if shouldSimulateError env.errorRand then
      .error (.api (createMockError env.msgRand env.now))
    else .ok (createMockResponse request env)

/-- Observable trace of one `generateImageWithRetry` call: its settled
result, the number of `generateImage` invocations, the `onRetry`
notifications `(attempt, error)` in order, and the backoff delays awaited. -/
structure RetryOutcome where
  result : Except JsError GenerationResponse
  calls : ℕ
  retryEvents : List (ℕ × ApiError)
  delays : List ℚ
deriving Repr

/-- The retry loop body of `generateImageWithRetry` (`src/lib/api.ts` lines
108-152), as a recursion on the number of remaining loop iterations
(`fuel = config.maxAttempts - attempt + 1`); `envs n` is the nondeterminism
of attempt `n`. Running out of fuel is the fall-through after the loop:
`throw lastError || new Error("Maximum retry attempts exceeded")`. -/
def retryLoopGo (request : GenerationRequest) (config : RetryConfig)
    (envs : ℕ → AttemptEnv) : ℕ → ℕ → Option ApiError → RetryOutcome
  | 0, _, lastError =>
    { result := .error (match lastError with
        | some e => .api e
        | none => .plain "Maximum retry attempts exceeded")
    , calls := 0, retryEvents := [], delays := [] }
  | fuel + 1, attempt, _ =>
    match generateImage request (envs attempt) with
    | .ok r => { result := .ok r, calls := 1, retryEvents := [], delays := [] }
    | .error err =>
      if (envs attempt).abortedAtCatch then
        { result := .error (.plain "Request aborted"), calls := 1
        , retryEvents := [], delays := [] }
      else match err with
        | .api e =>
          if !e.retryable then
            { result := .error (.api e), calls := 1, retryEvents := [], delays := [] }
          else if attempt = config.maxAttempts then
            { result := .error (.api e), calls := 1, retryEvents := [], delays := [] }
          else
            let rest := retryLoopGo request config envs fuel (attempt + 1) (some e)
            { result := rest.result
            , calls := rest.calls + 1
            , retryEvents := (attempt, e) :: rest.retryEvents
            , delays := delayWithJitter config attempt (envs attempt).jitterRand :: rest.delays }
        | .plain m =>
          { result := .error (.plain m), calls := 1, retryEvents := [], delays := [] }

/-- `generateImageWithRetry` from `src/lib/api.ts`: run the loop from
attempt 1. -/
def generateImageWithRetry (request : GenerationRequest) (config : RetryConfig)
    (envs : ℕ → AttemptEnv) : RetryOutcome :=
  retryLoopGo request config envs config.maxAttempts 1 none

-- =====================================
-- localStorage layer (src/lib/storage.ts)
-- =====================================

/-- The state of the external key-value persistence collaborator: `data`
holds the already-JSON-decoded value per key, `available` is what
`isStorageAvailable()` reports, and `writeFails` makes `localStorage.setItem`
throw (quota exceeded / private browsing). -/
structure Store (α : Type) where
  available : Bool
  writeFails : Bool
  data : List (String × α)
deriving Repr

/-- Raw association-list lookup (`localStorage.getItem`). -/
def storeLookup {α : Type} (data : List (String × α)) (key : String) : Option α :=
  (data.find? (fun p => p.1 = key)).map (fun p => p.2)

/-- `safeStorageOperation` from `src/lib/storage.ts`: if storage is
unavailable return the fallback; if the operation throws, absorb the
exception and return the fallback. -/
def safeStorageOperation {α : Type} (storageAvailable : Bool)
    (operation : Except String α) (fallback : α) : α :=
  if storageAvailable = false then fallback
  else match operation with
    | .ok v => v
    | .error _ => fallback

/-- The underlying `localStorage.setItem` call, which throws when the
quota is exceeded. -/
def rawSetItem {α : Type} (st : Store α) (key : String) (value : α) :
    Except String (Store α) :=
  if st.writeFails then .error "QuotaExceededError"
  else .ok { st with data := (key, value) :: st.data.filter (fun p => p.1 ≠ key) }

/-- `setItem` from `src/lib/storage.ts`: a write wrapped in
`safeStorageOperation`, whose fallback (`undefined`) leaves the store
unchanged. -/
def setItem {α : Type} (st : Store α) (key : String) (value : α) : Store α :=
  safeStorageOperation st.available (rawSetItem st key value) st

/-- `getItem` from `src/lib/storage.ts`: `item ? JSON.parse(item) : fallback`
wrapped in `safeStorageOperation`. -/
def getItem {α : Type} (st : Store α) (key : String) (fallback : α) : α :=
  safeStorageOperation st.available
    (.ok (match storeLookup st.data key with
          | some v => v
          | none => fallback))
    fallback

/-- `removeItem` from `src/lib/storage.ts`. -/
def removeItem {α : Type} (st : Store α) (key : String) : Store α :=
  safeStorageOperation st.available
    (.ok { st with data := st.data.filter (fun p => p.1 ≠ key) }) st

-- =====================================
-- History management (src/lib/storage.ts)
-- =====================================

/-- `STORAGE_KEYS.HISTORY`. -/
def STORAGE_KEYS_HISTORY : String := "modelia_generation_history"

/-- `HistoryStorage` from `src/lib/storage.ts`. -/
structure HistoryStorage where
  items : List HistoryItem
  lastUpdated : String
  version : ℕ
deriving Repr

/-- The history slice of localStorage. -/
abbrev HistoryKV := Store HistoryStorage

/-- `migrateHistoryV1` from `src/lib/storage.ts`: drops everything. -/
def migrateHistoryV1 : List HistoryItem := []

/-- `getHistoryItems` from `src/lib/storage.ts`; `now` is the clock value
used in the fallback record. -/
def getHistoryItems (st : HistoryKV) (now : String) : List HistoryItem :=
  let historyStorage := getItem st STORAGE_KEYS_HISTORY
    { items := [], lastUpdated := now, version := 1 }
  if historyStorage.version < 1 then migrateHistoryV1
  else historyStorage.items

/-- `saveHistoryItem` from `src/lib/storage.ts`: de-duplicate by id,
prepend, truncate to `MAX_HISTORY_ITEMS`, persist. -/
def saveHistoryItem (st : HistoryKV) (item : HistoryItem) (now : String) : HistoryKV :=
  let history := getHistoryItems st now
  let filteredHistory := history.filter (fun h => h.id ≠ item.id)
  let newHistory := item :: filteredHistory
  let trimmedHistory := newHistory.take MAX_HISTORY_ITEMS
  setItem st STORAGE_KEYS_HISTORY
    { items := trimmedHistory, lastUpdated := now, version := 1 }

/-- `removeHistoryItem` from `src/lib/storage.ts`. -/
def removeHistoryItem (st : HistoryKV) (id : String) (now : String) : HistoryKV :=
  let history := getHistoryItems st now
  setItem st STORAGE_KEYS_HISTORY
    { items := history.filter (fun item => item.id ≠ id)
    , lastUpdated := now, version := 1 }

/-- `clearHistory` from `src/lib/storage.ts`. -/
def clearHistory (st : HistoryKV) : HistoryKV :=
  removeItem st STORAGE_KEYS_HISTORY

/-- The per-item update of `toggleHistoryItemFavorite`:
`{ ...item, isFavorite: !item.isFavorite }` (JS `!undefined = true`). -/
def toggleFavoriteItem (id : String) (item : HistoryItem) : HistoryItem :=
  if item.id = id then { item with isFavorite := some (!(item.isFavorite.getD false)) }
  else item

/-- `toggleHistoryItemFavorite` from `src/lib/storage.ts`. -/
def toggleHistoryItemFavorite (st : HistoryKV) (id : String) (now : String) : HistoryKV :=
  let history := getHistoryItems st now
  setItem st STORAGE_KEYS_HISTORY
    { items := history.map (toggleFavoriteItem id)
    , lastUpdated := now, version := 1 }

/-- One user-level operation on the history store, with the clock value it
runs at. -/
inductive HistoryOp where
  | record (item : HistoryItem) (now : String)
  | remove (id : String) (now : String)
  | toggle (id : String) (now : String)
  | clear
deriving Repr

/-- Interpretation of a history operation. -/
def applyHistoryOp (st : HistoryKV) : HistoryOp → HistoryKV
  | .record item now => saveHistoryItem st item now
  | .remove id now => removeHistoryItem st id now
  | .toggle id now => toggleHistoryItemFavorite st id now
  | .clear => clearHistory st

/-- A localStorage instance whose history key has never been written. -/
def emptyHistoryKV (available writeFails : Bool) : HistoryKV :=
  { available := available, writeFails := writeFails, data := [] }

-- =====================================
-- Generation slice of the Zustand store (src/lib/store.ts)
-- =====================================

/-- The `generation` slice of the store state (`GenerationState` in
`src/types/index.ts`); `status` is one of `"idle" | "uploading" |
"generating" | "success" | "error" | "aborted"`. -/
structure GenerationSlice where
  status : String
  progress : ℤ
  currentRequest : Option GenerationRequest
  result : Option GenerationResponse
  error : Option ApiError
  retryCount : ℕ
  canRetry : Bool
deriving Repr

/-- The pieces of the store state the generation actions read and write:
the generation slice, the form validity flags (`validateForm()`), and the
preview fields (`currentImage?.dataUrl`, `currentPrompt`, `currentStyle`,
`isGenerating`). -/
structure StoreState where
  generation : GenerationSlice
  formValid : Bool
  currentImage : Option String
  currentPrompt : String
  currentStyle : String
  isGenerating : Bool
deriving Repr

/-- The synchronous prefix of `startGeneration` (`src/lib/store.ts`): guard
on `validateForm()` and `currentImage`, build the request with a fresh
`requestId`, and enter the `generating` state with `retryCount` reset to 0.
Returns the request handed to `createGeneration`, or `none` when a guard
made the action return early. -/
def startGenerationBegin (s : StoreState) (freshId : String) :
    StoreState × Option GenerationRequest :=
  if !s.formValid then (s, none)
  else match s.currentImage with
  | none => (s, none)
  | some img =>
    let request : GenerationRequest :=
      { imageDataUrl := img, prompt := jsTrim s.currentPrompt
      , style := s.currentStyle, requestId := some freshId }
    ({ s with
        generation :=
          { s.generation with
              status := "generating", progress := 0
              , currentRequest := some request, result := none, error := none
              , retryCount := 0, canRetry := false }
        , isGenerating := true }
    , some request)

/-- The `onProgress` milestones `createGeneration` emits before invoking
`generateImageWithRetry` (10/30/60/90), each of which the store writes into
`generation.progress`. -/
def applyProgressUpdates (s : StoreState) : StoreState :=
  [10, 30, 60, 90].foldl
    (fun s p => { s with generation := { s.generation with progress := p } }) s

/-- The store's `onRetry` callback: `retryCount` becomes the reported
attempt number and the retryable error is recorded. -/
def applyRetryEvent (s : StoreState) (ev : ℕ × ApiError) : StoreState :=
  { s with generation := { s.generation with retryCount := ev.1, error := some ev.2 } }

/-- The `catch` block of `startGeneration` coerces whatever was thrown into
an `ApiError`: `message: error.message || "Generation failed"`,
`code: error.code || "UNKNOWN_ERROR"`, `retryable: error.retryable ?? true`. -/
def coerceCaughtError (e : JsError) (now : String) : ApiError :=
  match e with
  | .api a =>
    { name := "ApiError"
    , message := if a.message = "" then "Generation failed" else a.message
    , code := if a.code = "" then "UNKNOWN_ERROR" else a.code
    , retryable := a.retryable
    , timestamp := now }
  | .plain m =>
    { name := "ApiError"
    , message := if m = "" then "Generation failed" else m
    , code := "UNKNOWN_ERROR"
    , retryable := true
    , timestamp := now }

/-- The continuation of `startGeneration` once `createGeneration` settles:
apply the recorded `onRetry` notifications, then either finalize a success
(force progress 100, store the result, save a `HistoryItem` built from the
result and the preview thumbnail) or run the `catch` block computing
`canRetry = retryable && retryCount < RETRY_CONFIG.maxAttempts`. The
history store is only touched on the success path. -/
def startGenerationFinish (s : StoreState) (outcome : RetryOutcome)
    (now : String) (kv : HistoryKV) : StoreState × HistoryKV :=
  let s := outcome.retryEvents.foldl applyRetryEvent s
  match outcome.result with
  | .ok r =>
    let s' := { s with
        generation :=
          { s.generation with
              status := "success", progress := 100, result := some r
              , error := none, canRetry := false }
        , isGenerating := false }
    let historyItem : HistoryItem :=
      { id := r.id, imageUrl := r.imageUrl, prompt := r.prompt, style := r.style
      , createdAt := r.createdAt, processingTime := r.processingTime
      , thumbnail := s.currentImage, isFavorite := none }
    (s', saveHistoryItem kv historyItem now)
  | .error e =>
    let apiError := coerceCaughtError e now
    ({ s with
        generation :=
          { s.generation with
              status := "error", error := some apiError
              , canRetry := apiError.retryable &&
                  decide (s.generation.retryCount < RETRY_CONFIG.maxAttempts) }
        , isGenerating := false }
    , kv)

/-- A full, un-cancelled `startGeneration` run: synchronous prefix, the
progress milestones, the retry loop with per-attempt nondeterminism `envs`,
then the settling continuation. -/
def startGenerationRun (s : StoreState) (freshId : String)
    (envs : ℕ → AttemptEnv) (now : String) (kv : HistoryKV) :
    StoreState × HistoryKV :=
  match startGenerationBegin s freshId with
  | (s1, none) => (s1, kv)
  | (s1, some request) =>
    let s2 := applyProgressUpdates s1
    let outcome := generateImageWithRetry request RETRY_CONFIG envs
    startGenerationFinish s2 outcome now kv

/-- `abortGeneration` from `src/lib/store.ts`: cancel the in-flight
controller (the abort reaches the endpoint through the env flags) and set
the aborted state. -/
def abortGeneration (s : StoreState) : StoreState :=
  { s with
      generation :=
        { s.generation with
            status := "aborted", progress := 0, error := none, canRetry := false }
      , isGenerating := false }

/-- A submission cancelled while awaiting its processing delay: the user's
`abortGeneration` runs after the progress milestones, then the aborted
attempt's rejection settles the pending `startGeneration`, whose `catch`
block runs last. The env flags `abortedAfterDelay`/`abortedAtCatch` carry
the abort signal into the endpoint and the retry loop. -/
def cancelledSubmission (s : StoreState) (freshId : String)
    (envs : ℕ → AttemptEnv) (now : String) (kv : HistoryKV) :
    StoreState × HistoryKV :=
  match startGenerationBegin s freshId with
  | (s1, none) => (s1, kv)
  | (s1, some request) =>
    let s2 := abortGeneration (applyProgressUpdates s1)
    let outcome := generateImageWithRetry request RETRY_CONFIG envs
    startGenerationFinish s2 outcome now kv

/-- The synchronous prefix of `retryGeneration` (`src/lib/store.ts`): guard
on `currentRequest` and `canRetry`, reset to `generating` with progress 0,
then delegate to `startGeneration` (whose prefix rebuilds the request and
resets `retryCount` to 0). -/
def retryGenerationBegin (s : StoreState) (freshId : String) :
    StoreState × Option GenerationRequest :=
  match s.generation.currentRequest, s.generation.canRetry with
  | some _, true =>
    let s1 := { s with
        generation :=
          { s.generation with status := "generating", progress := 0, error := none }
        , isGenerating := true }
    startGenerationBegin s1 freshId
  | _, _ => (s, none)

-- =====================================
-- RequestManager (src/lib/api.ts)
-- =====================================

/-- An `AbortController`: an identity plus its aborted flag. -/
structure AbortController where
  ctrlId : ℕ
  aborted : Bool
deriving DecidableEq, Repr

/-- The `activeRequests` private `Map<string, AbortController>`, modelled
as an association list. -/
abbrev ActiveMap := List (String × AbortController)

/-- `Map.get`. -/
def mapGet (m : ActiveMap) (k : String) : Option AbortController :=
  (m.find? (fun p => p.1 = k)).map (fun p => p.2)

/-- `Map.set`: replaces any binding of the key. -/
def mapSet (m : ActiveMap) (k : String) (c : AbortController) : ActiveMap :=
  (k, c) :: m.filter (fun p => p.1 ≠ k)

/-- `Map.delete`. -/
def mapDelete (m : ActiveMap) (k : String) : ActiveMap :=
  m.filter (fun p => p.1 ≠ k)

/-- `RequestManager.cancelRequest`: abort and drop the controller if one is
active; returns the new map and the id of the controller that was aborted,
if any (so that "no-op" is observable). -/
def cancelRequest (m : ActiveMap) (requestId : String) : ActiveMap × Option ℕ :=
  match mapGet m requestId with
  | some controller => (mapDelete m requestId, some controller.ctrlId)
  | none => (m, none)

/-- `RequestManager.isRequestActive`. -/
def isRequestActive (m : ActiveMap) (requestId : String) : Bool :=
  (mapGet m requestId).isSome

/-- The map as it stands while the request function is in flight:
after `cancelRequest(requestId)` and `set(requestId, controller)`. -/
def makeRequestMidMap (m : ActiveMap) (requestId : String) (fresh : ℕ) : ActiveMap :=
  mapSet (cancelRequest m requestId).1 requestId { ctrlId := fresh, aborted := false }

/-- `RequestManager.makeRequest`: cancel any existing request under the id,
register a fresh controller, run the request function (whose settled result
is the `outcome` parameter), and delete the id again whether it resolved or
rejected. -/
def makeRequest {ε τ : Type} (m : ActiveMap) (requestId : String) (fresh : ℕ)
    (outcome : Except ε τ) : Except ε τ × ActiveMap :=
  let m2 := makeRequestMidMap m requestId fresh
  match outcome with
  | .ok v => (.ok v, mapDelete m2 requestId)
  | .error e => (.error e, mapDelete m2 requestId)

-- =====================================
-- Derived definitions used by the statements
-- =====================================

/-- Whether an `Except` computation succeeded (a call that did not throw). -/
def exceptIsOk {eps alpha : Type} : Except eps alpha → Bool
  | .ok _ => true
  | .error _ => false

/-- The conditions under which `validateGenerationRequest` accepts a
request: image data URL with the image marker, trimmed prompt length in
[1, 500], and a known style. -/
def requestWellFormed (r : GenerationRequest) : Prop :=
  r.imageDataUrl ≠ "" ∧
  jsStartsWith r.imageDataUrl "data:image/" = true ∧
  1 ≤ (jsTrim r.prompt).length ∧
  (jsTrim r.prompt).length ≤ 500 ∧
  isValidStyle r.style = true

instance (r : GenerationRequest) : Decidable (requestWellFormed r) := by
  unfold requestWellFormed; infer_instance

/-- A minimal concrete history item, used by concrete instances. -/
def demoItem (id : String) : HistoryItem :=
  { id := id, imageUrl := "url", prompt := "prompt", style := "editorial"
  , createdAt := "t0", processingTime := none, thumbnail := none, isFavorite := none }

/-- Recording six distinct items in sequence. -/
def sixRecordOps : List HistoryOp :=
  [ .record (demoItem "1") "t1", .record (demoItem "2") "t2"
  , .record (demoItem "3") "t3", .record (demoItem "4") "t4"
  , .record (demoItem "5") "t5", .record (demoItem "6") "t6" ]

/-- A concrete well-formed generation request. -/
def demoRequest : GenerationRequest :=
  { imageDataUrl := "data:image/png;base64,abc", prompt := "red dress on runway"
  , style := "editorial", requestId := some "req-1" }

/-- A per-attempt environment in which the mock endpoint fails with a
retryable overload error (`errorRand = 0 < ERROR_RATE`) and no abort is
observed. -/
def failEnv : AttemptEnv :=
  { delayRand := 0, abortedAfterDelay := false, errorRand := 0, msgRand := 0
  , respTimeRand := 0, urlRand := 0, jitterRand := 0, abortedAtCatch := false
  , newId := "gen-1", now := "t" }

/-- A per-attempt environment in which the abort signal fires while the
processing delay is pending: the post-delay check and the retry loop's
catch both observe it. -/
def abortEnv : AttemptEnv :=
  { delayRand := 0, abortedAfterDelay := true, errorRand := 1/2, msgRand := 0
  , respTimeRand := 0, urlRand := 0, jitterRand := 0, abortedAtCatch := true
  , newId := "gen-1", now := "t" }

/-- A per-attempt environment in which the endpoint succeeds
(`errorRand = 1/2 ≥ ERROR_RATE`); the waited delay draw is 0 (1000 ms)
while the response's own `processingTime` draw is 1/2 (1500 ms). -/
def okEnv : AttemptEnv :=
  { delayRand := 0, abortedAfterDelay := false, errorRand := 1/2, msgRand := 0
  , respTimeRand := 1/2, urlRand := 0, jitterRand := 0, abortedAtCatch := false
  , newId := "gen-1", now := "t" }

/-- The idle generation slice (initial store state). -/
def idleSlice : GenerationSlice :=
  { status := "idle", progress := 0, currentRequest := none, result := none
  , error := none, retryCount := 0, canRetry := false }

/-- A concrete store state with a validated form and a selected image. -/
def demoStore : StoreState :=
  { generation := idleSlice, formValid := true
  , currentImage := some "data:image/png;base64,abc"
  , currentPrompt := "red dress on runway", currentStyle := "editorial"
  , isGenerating := false }

/-- A concrete store state sitting in the `error` state after two retries,
with `canRetry` true. -/
def errorStore : StoreState :=
  { generation :=
      { status := "error", progress := 0
      , currentRequest := some
          { imageDataUrl := "data:image/png;base64,abc"
          , prompt := "red dress on runway", style := "editorial"
          , requestId := some "r1" }
      , result := none
      , error := some (apiErrorClass "Model overloaded" "MODEL_OVERLOADED" true "t")
      , retryCount := 2, canRetry := true }
  , formValid := true
  , currentImage := some "data:image/png;base64,abc"
  , currentPrompt := "red dress on runway", currentStyle := "editorial"
  , isGenerating := false }

/-- A concrete healthy localStorage instance holding two history items. -/
def demoKV : HistoryKV :=
  { available := true, writeFails := false
  , data := [(STORAGE_KEYS_HISTORY,
      { items := [demoItem "1", { demoItem "2" with isFavorite := some true }]
      , lastUpdated := "t0", version := 1 })] }

-- =====================================
-- Helper lemmas: association lists
-- =====================================

theorem find?_filter_ne_none {β : Type} (m : List (String × β)) (k : String) :
    (m.filter (fun p => !decide (p.1 = k))).find? (fun p => p.1 = k) = none := by
  induction m with
  | nil => rfl
  | cons a m ih =>
    by_cases h : a.1 = k
    · simp [List.filter, h, ih]
    · simp [List.filter, List.find?, h, ih]

theorem filter_ne_idem {β : Type} (m : List (String × β)) (k : String) :
    (m.filter (fun p => !decide (p.1 = k))).filter (fun p => !decide (p.1 = k)) =
      m.filter (fun p => !decide (p.1 = k)) := by
  induction m with
  | nil => rfl
  | cons a m ih =>
    by_cases h : a.1 = k
    · simp [List.filter, h, ih]
    · simp [List.filter, h, ih]

theorem countP_filter_self {β : Type} (m : List (String × β)) (k : String) :
    (m.filter (fun p => !decide (p.1 = k))).countP (fun p => p.1 = k) = 0 := by
  induction m with
  | nil => rfl
  | cons a m ih =>
    by_cases h : a.1 = k
    · simp [List.filter, h, ih]
    · simp [List.filter, h, List.countP_cons, ih]

theorem countP_filter_ne {β : Type} (m : List (String × β)) (kset k : String)
    (h : ¬k = kset) :
    (m.filter (fun p => !decide (p.1 = kset))).countP (fun p => p.1 = k) =
      m.countP (fun p => p.1 = k) := by
  induction m with
  | nil => rfl
  | cons a m ih =>
    by_cases ha : a.1 = kset
    · have hak : ¬(a.1 = k) := fun hk => h (by rw [← hk, ha])
      simp [List.filter, ha, List.countP_cons, ih, hak]
      exact fun hh => h hh.symm
    · simp [List.filter, ha, List.countP_cons, ih]

theorem mapGet_filter_ne (m : ActiveMap) (k : String) :
    mapGet (m.filter (fun p => !decide (p.1 = k))) k = none := by
  simp [mapGet, find?_filter_ne_none]

/-- The map left behind by a settled `makeRequest` is the input map without
the request id. -/
theorem makeRequest_final_map {ε τ : Type} (m : ActiveMap) (requestId : String)
    (fresh : ℕ) (outcome : Except ε τ) :
    (makeRequest m requestId fresh outcome).2 =
      m.filter (fun p => !decide (p.1 = requestId)) := by
  unfold makeRequest makeRequestMidMap cancelRequest
  cases h : mapGet m requestId <;>
    cases outcome <;>
      simp [mapSet, mapDelete, filter_ne_idem]

/-- C10: once `RequestManager.makeRequest(requestId, fn)` settles (whether
`fn` resolved or rejected) it returns the callback's settled result
unchanged, the `requestId` is gone from the active-request map
(`isRequestActive` is false and a subsequent `cancelRequest` is a no-op
that aborts nothing), and at every moment — including while the request is
in flight, when `makeRequestMidMap` describes the map — the manager holds
exactly one `AbortController` for the in-flight id and at most as many
controllers per other key as before. -/
theorem requestManager_settled_invariants {ε τ : Type} (m : ActiveMap)
    (requestId : String) (fresh : ℕ) (outcome : Except ε τ) :
    (makeRequest m requestId fresh outcome).1 = outcome ∧
    isRequestActive (makeRequest m requestId fresh outcome).2 requestId = false ∧
    cancelRequest (makeRequest m requestId fresh outcome).2 requestId =
      ((makeRequest m requestId fresh outcome).2, none) ∧
    (∀ k : String,
      (makeRequestMidMap m requestId fresh).countP (fun p => p.1 = k) =
        if k = requestId then 1 else m.countP (fun p => p.1 = k)) := by
  refine ⟨?_, ?_, ?_, ?_⟩
  · cases outcome <;> rfl
  · simp [isRequestActive, makeRequest_final_map, mapGet_filter_ne]
  · have hnone : mapGet (makeRequest m requestId fresh outcome).2 requestId = none := by
      rw [makeRequest_final_map]
      exact mapGet_filter_ne m requestId
    simp [cancelRequest, hnone]
  · intro k
    unfold makeRequestMidMap cancelRequest
    by_cases hk : k = requestId
    · subst hk
      cases h : mapGet m k <;>
        simp [mapSet, mapDelete, List.countP_cons, countP_filter_self]
    · cases h : mapGet m requestId <;>
        · simp [mapSet, mapDelete, List.countP_cons, countP_filter_ne _ _ _ hk, hk]
          exact fun hh => hk hh.symm

-- =====================================
-- C4: retry backoff delay
-- =====================================

/-- A jittered value `max 0 (b + b/4 * (2r - 1))` with `r ∈ [0,1)` stays
within ±25% of the base value `b`. -/
theorem jitter_within_quarter (b r : ℚ) (hb : 0 ≤ b) (h0 : 0 ≤ r) (h1 : r < 1) :
    (3/4) * b ≤ max 0 (b + b * (1/4) * (r * 2 - 1)) ∧
    max 0 (b + b * (1/4) * (r * 2 - 1)) ≤ (5/4) * b := by
  have hi1 : (3/4) * b ≤ b + b * (1/4) * (r * 2 - 1) := by nlinarith
  have hi2 : b + b * (1/4) * (r * 2 - 1) ≤ (5/4) * b := by nlinarith
  exact ⟨le_trans hi1 (le_max_right _ _), max_le (by positivity) hi2⟩

theorem backoffDelay_default_attempt1 : backoffDelay RETRY_CONFIG 1 = 1000 := by
  rw [backoffDelay]; norm_num [RETRY_CONFIG]

theorem backoffDelay_default_attempt4 : backoffDelay RETRY_CONFIG 4 = 8000 := by
  rw [backoffDelay]; norm_num [RETRY_CONFIG]

/-- C4 (amended): for every attempt `n ≥ 1` and every jitter draw
`r ∈ [0,1)`, the delay the retry loop awaits equals
`min(baseDelay * backoffMultiplier^(n-1), maxDelay)` adjusted by up to ±25%
and floored at 0; under the default config the attempt-1 delay lies in
[750, 1250] and the attempt-4 delay lies in [6000, 10000] (the un-jittered
value 8000 hits the cap before jitter, so jitter can push the result up to
25% above `maxDelay`). -/
theorem nextDelay_bounds (config : RetryConfig) (attempt : ℕ) (r : ℚ)
    (h0 : 0 ≤ r) (h1 : r < 1) (hb : 0 ≤ backoffDelay config attempt) :
    delayWithJitter config attempt r =
      max 0 (backoffDelay config attempt
        + backoffDelay config attempt * (1/4) * (r * 2 - 1)) ∧
    (3/4) * backoffDelay config attempt ≤ delayWithJitter config attempt r ∧
    delayWithJitter config attempt r ≤ (5/4) * backoffDelay config attempt ∧
    750 ≤ delayWithJitter RETRY_CONFIG 1 r ∧
    delayWithJitter RETRY_CONFIG 1 r ≤ 1250 ∧
    6000 ≤ delayWithJitter RETRY_CONFIG 4 r ∧
    delayWithJitter RETRY_CONFIG 4 r ≤ 10000 := by
  obtain ⟨l, u⟩ := jitter_within_quarter (backoffDelay config attempt) r hb h0 h1
  obtain ⟨l1, u1⟩ := jitter_within_quarter 1000 r (by norm_num) h0 h1
  obtain ⟨l4, u4⟩ := jitter_within_quarter 8000 r (by norm_num) h0 h1
  have e1 : delayWithJitter RETRY_CONFIG 1 r =
      max 0 (1000 + 1000 * (1/4) * (r * 2 - 1)) := by
    rw [delayWithJitter, backoffDelay_default_attempt1]
  have e4 : delayWithJitter RETRY_CONFIG 4 r =
      max 0 (8000 + 8000 * (1/4) * (r * 2 - 1)) := by
    rw [delayWithJitter, backoffDelay_default_attempt4]
  refine ⟨rfl, l, u, ?_, ?_, ?_, ?_⟩
  · rw [e1]; linarith
  · rw [e1]; linarith
  · rw [e4]; linarith
  · rw [e4]; linarith

/-- Witness for `nextDelay_bounds` at attempt 2, jitter draw 1/2. -/
theorem nextDelay_bounds_witness :
    (0:ℚ) ≤ 1/2 ∧ (1/2:ℚ) < 1 ∧ 0 ≤ backoffDelay RETRY_CONFIG 2 ∧
    (3/4) * backoffDelay RETRY_CONFIG 2 ≤ delayWithJitter RETRY_CONFIG 2 (1/2) ∧
    delayWithJitter RETRY_CONFIG 2 (1/2) ≤ (5/4) * backoffDelay RETRY_CONFIG 2 ∧
    750 ≤ delayWithJitter RETRY_CONFIG 1 (1/2) ∧
    6000 ≤ delayWithJitter RETRY_CONFIG 4 (1/2) := by
  have hb : (0:ℚ) ≤ backoffDelay RETRY_CONFIG 2 := by
    rw [backoffDelay]; norm_num [RETRY_CONFIG]
  have h := nextDelay_bounds RETRY_CONFIG 2 (1/2) (by norm_num) (by norm_num) hb
  exact ⟨by norm_num, by norm_num, hb, h.2.1, h.2.2.1, h.2.2.2.1, h.2.2.2.2.2.1⟩

/-- Counterexample to C4 as stated: the jitter draw 9/10 is a legitimate
draw in [0,1), yet the attempt-4 delay it produces is 9600 ms, outside the
claimed interval [6000, 8000]. -/
theorem nextDelay_attempt4_counterexample :
    (0:ℚ) ≤ 9/10 ∧ (9/10:ℚ) < 1 ∧
    delayWithJitter RETRY_CONFIG 4 (9/10) = 9600 ∧
    ¬(delayWithJitter RETRY_CONFIG 4 (9/10) ≤ 8000) := by
  have hd : delayWithJitter RETRY_CONFIG 4 (9/10) = 9600 := by
    rw [delayWithJitter, backoffDelay_default_attempt4]; norm_num
  refine ⟨by norm_num, by norm_num, hd, by rw [hd]; norm_num⟩

-- =====================================
-- C3: validator prompt rules
-- =====================================

theorem validate_ok_of_wellFormed (r : GenerationRequest) (now : String)
    (h : requestWellFormed r) : validateGenerationRequest r now = .ok () := by
  obtain ⟨h1, h2, h3, h4, h5⟩ := h
  have hpe : r.prompt ≠ "" := fun he => by
    rw [he] at h3; exact absurd h3 (by decide)
  have hne : ¬(r.prompt = "" ∨ (jsTrim r.prompt).length = 0) := by
    rintro (he | he)
    · exact hpe he
    · omega
  have hgt : ¬((jsTrim r.prompt).length > 500) := by omega
  simp [validateGenerationRequest, h1, hne, hgt, h5, h2]

/-- C3: for every request, the validator rejects a prompt whose trimmed
length is 0 (with the required-prompt error, provided the earlier image
presence check passed) or greater than 500 (with the length error), it
rejects every such prompt regardless of the other fields, and it accepts
whenever the trimmed prompt length lies in [1, 500] and the image and style
fields pass their own checks. -/
theorem validator_prompt_rules (rEmpty rLong rValid : GenerationRequest) (now : String)
    (hE : (jsTrim rEmpty.prompt).length = 0) (hEimg : rEmpty.imageDataUrl ≠ "")
    (hL : (jsTrim rLong.prompt).length > 500) (hLimg : rLong.imageDataUrl ≠ "")
    (hV : requestWellFormed rValid) :
    validateGenerationRequest rEmpty now =
      .error (apiErrorClass "Prompt is required" "VALIDATION_ERROR" false now) ∧
    validateGenerationRequest rLong now =
      .error (apiErrorClass "Prompt is too long (max 500 characters)"
        "VALIDATION_ERROR" false now) ∧
    validateGenerationRequest rValid now = .ok () ∧
    (∀ r : GenerationRequest,
      (jsTrim r.prompt).length = 0 ∨ (jsTrim r.prompt).length > 500 →
        exceptIsOk (validateGenerationRequest r now) = false) := by
  refine ⟨?_, ?_, validate_ok_of_wellFormed rValid now hV, ?_⟩
  · simp [validateGenerationRequest, hEimg, Or.inr hE]
  · have hpe : rLong.prompt ≠ "" := fun he => by
      rw [he] at hL; exact absurd hL (by decide)
    have hne : ¬(rLong.prompt = "" ∨ (jsTrim rLong.prompt).length = 0) := by
      rintro (he | he)
      · exact hpe he
      · omega
    simp [validateGenerationRequest, hLimg, hne, hL]
  · intro r hbad
    by_cases h1 : r.imageDataUrl = ""
    · simp [validateGenerationRequest, h1, exceptIsOk]
    · by_cases h2 : r.prompt = "" ∨ (jsTrim r.prompt).length = 0
      · simp [validateGenerationRequest, h1, h2, exceptIsOk]
      · by_cases h3 : (jsTrim r.prompt).length > 500
        · simp [validateGenerationRequest, h1, h2, h3, exceptIsOk]
        · rcases hbad with hb | hb
          · exact absurd (Or.inr hb) h2
          · exact absurd hb h3

/-- Witness for `validator_prompt_rules`: a whitespace-only prompt, a
501-character prompt, and a well-formed request. -/
theorem validator_prompt_rules_witness :
    (jsTrim "   ").length = 0 ∧
    (jsTrim (String.mk (List.replicate 501 'a'))).length > 500 ∧
    requestWellFormed demoRequest ∧
    validateGenerationRequest { demoRequest with prompt := "   " } "t" =
      .error (apiErrorClass "Prompt is required" "VALIDATION_ERROR" false "t") ∧
    validateGenerationRequest
        { demoRequest with prompt := String.mk (List.replicate 501 'a') } "t" =
      .error (apiErrorClass "Prompt is too long (max 500 characters)"
        "VALIDATION_ERROR" false "t") ∧
    validateGenerationRequest demoRequest "t" = .ok () ∧
    exceptIsOk (validateGenerationRequest { demoRequest with prompt := "   " } "t") = false := by
  have h := validator_prompt_rules { demoRequest with prompt := "   " }
    { demoRequest with prompt := String.mk (List.replicate 501 'a') } demoRequest "t"
    (by decide) (by decide) (by decide) (by decide) (by decide)
  exact ⟨by decide, by decide, by decide, h.1, h.2.1, h.2.2.1, h.2.2.2 _ (Or.inl (by decide))⟩

-- =====================================
-- Helper lemmas: localStorage layer
-- =====================================

theorem setItem_unavailable {α : Type} (st : Store α) (k : String) (v : α)
    (h : st.available = false) : setItem st k v = st := by
  simp [setItem, safeStorageOperation, h]

theorem setItem_writeFails {α : Type} (st : Store α) (k : String) (v : α)
    (h : st.writeFails = true) : setItem st k v = st := by
  cases hav : st.available <;>
    simp [setItem, safeStorageOperation, rawSetItem, hav, h]

theorem removeItem_unavailable {α : Type} (st : Store α) (k : String)
    (h : st.available = false) : removeItem st k = st := by
  simp [removeItem, safeStorageOperation, h]

theorem getItem_unavailable {α : Type} (st : Store α) (k : String) (fallback : α)
    (h : st.available = false) : getItem st k fallback = fallback := by
  simp [getItem, safeStorageOperation, h]

theorem setItem_healthy {α : Type} (st : Store α) (k : String) (v : α)
    (hav : st.available = true) (hwf : st.writeFails = false) :
    setItem st k v = { st with data := (k, v) :: st.data.filter (fun p => p.1 ≠ k) } := by
  simp [setItem, safeStorageOperation, rawSetItem, hav, hwf]

theorem storeLookup_set_self {α : Type} (data : List (String × α)) (k : String) (v : α) :
    storeLookup ((k, v) :: data.filter (fun p => !decide (p.1 = k))) k = some v := by
  simp [storeLookup, List.find?]

/-- The items listed by `getHistoryItems` do not depend on the clock value,
which only enters the fallback record whose item list is empty. -/
theorem getHistoryItems_now_irrel (st : HistoryKV) (now now' : String) :
    getHistoryItems st now = getHistoryItems st now' := by
  cases hav : st.available <;>
    cases hl : storeLookup st.data STORAGE_KEYS_HISTORY <;>
      simp [getHistoryItems, getItem, safeStorageOperation, hav, hl]

theorem getHistoryItems_unavailable (st : HistoryKV) (now : String)
    (h : st.available = false) : getHistoryItems st now = [] := by
  simp [getHistoryItems, getItem, safeStorageOperation, h]

/-- Reading back a history record just written to a healthy store. -/
theorem getHistoryItems_setItem (st : HistoryKV) (items : List HistoryItem)
    (lu now : String) (hav : st.available = true) (hwf : st.writeFails = false) :
    getHistoryItems
      (setItem st STORAGE_KEYS_HISTORY { items := items, lastUpdated := lu, version := 1 })
      now = items := by
  rw [setItem_healthy st _ _ hav hwf]
  simp [getHistoryItems, getItem, safeStorageOperation, hav, storeLookup_set_self]

-- =====================================
-- C2: bounded history
-- =====================================

theorem find?_false {β : Type} (l : List β) : l.find? (fun _ => false) = none := by
  induction l <;> simp [List.find?, *]

theorem getHistoryItems_clear_available (st : HistoryKV) (t : String)
    (hav : st.available = true) :
    getHistoryItems (removeItem st STORAGE_KEYS_HISTORY) t = [] := by
  simp [removeItem, safeStorageOperation, hav, getHistoryItems, getItem,
    storeLookup, find?_false]

theorem getHistoryItems_empty (av wf : Bool) (t : String) :
    getHistoryItems (emptyHistoryKV av wf) t = [] := by
  cases av <;>
    simp [emptyHistoryKV, getHistoryItems, getItem, safeStorageOperation, storeLookup]

/-- Every history operation leaves the listed history at no more than
`MAX_HISTORY_ITEMS` items, whatever the state of the persistence layer. -/
theorem historyOp_preserves_bound (st : HistoryKV) (op : HistoryOp)
    (h : ∀ t, (getHistoryItems st t).length ≤ MAX_HISTORY_ITEMS) :
    ∀ t, (getHistoryItems (applyHistoryOp st op) t).length ≤ MAX_HISTORY_ITEMS := by
  intro t
  have havcases : st.available = false ∨
      (st.available = true ∧ st.writeFails = true) ∨
      (st.available = true ∧ st.writeFails = false) := by
    cases st.available <;> cases st.writeFails <;> simp
  cases op with
  | record item now =>
    show (getHistoryItems (saveHistoryItem st item now) t).length ≤ MAX_HISTORY_ITEMS
    rcases havcases with hav | ⟨hav, hwf⟩ | ⟨hav, hwf⟩
    · rw [saveHistoryItem, setItem_unavailable _ _ _ hav]; exact h t
    · rw [saveHistoryItem, setItem_writeFails _ _ _ hwf]; exact h t
    · rw [saveHistoryItem, getHistoryItems_setItem _ _ _ _ hav hwf]
      calc (((item :: (getHistoryItems st now).filter
                (fun hh => hh.id ≠ item.id)).take MAX_HISTORY_ITEMS)).length
          = min MAX_HISTORY_ITEMS (item :: (getHistoryItems st now).filter
              (fun hh => hh.id ≠ item.id)).length := List.length_take _ _
        _ ≤ MAX_HISTORY_ITEMS := min_le_left _ _
  | remove id now =>
    show (getHistoryItems (removeHistoryItem st id now) t).length ≤ MAX_HISTORY_ITEMS
    rcases havcases with hav | ⟨hav, hwf⟩ | ⟨hav, hwf⟩
    · rw [removeHistoryItem, setItem_unavailable _ _ _ hav]; exact h t
    · rw [removeHistoryItem, setItem_writeFails _ _ _ hwf]; exact h t
    · rw [removeHistoryItem, getHistoryItems_setItem _ _ _ _ hav hwf]
      exact le_trans (List.length_filter_le _ _) (h now)
  | toggle id now =>
    show (getHistoryItems (toggleHistoryItemFavorite st id now) t).length
        ≤ MAX_HISTORY_ITEMS
    rcases havcases with hav | ⟨hav, hwf⟩ | ⟨hav, hwf⟩
    · rw [toggleHistoryItemFavorite, setItem_unavailable _ _ _ hav]; exact h t
    · rw [toggleHistoryItemFavorite, setItem_writeFails _ _ _ hwf]; exact h t
    · rw [toggleHistoryItemFavorite, getHistoryItems_setItem _ _ _ _ hav hwf]
      rw [List.length_map]
      exact h now
  | clear =>
    show (getHistoryItems (clearHistory st) t).length ≤ MAX_HISTORY_ITEMS
    cases hav : st.available
    · rw [clearHistory, removeItem_unavailable _ _ hav]; exact h t
    · rw [clearHistory, getHistoryItems_clear_available _ _ hav]
      simp [MAX_HISTORY_ITEMS]

theorem foldl_history_bound (ops : List HistoryOp) (st : HistoryKV)
    (h : ∀ t, (getHistoryItems st t).length ≤ MAX_HISTORY_ITEMS) :
    ∀ t, (getHistoryItems (ops.foldl applyHistoryOp st) t).length
      ≤ MAX_HISTORY_ITEMS := by
  induction ops generalizing st with
  | nil => exact h
  | cons op ops ih => exact ih _ (historyOp_preserves_bound st op h)

/-- C2: `saveHistoryItem` removes any existing entry with the same id,
prepends the new item and truncates to the 5 most recent; after any
sequence of record/remove/toggle/clear operations starting from an empty
store the listed history holds at most 5 items, whatever the state of the
persistence layer; and recording 6 successive distinct items from an empty
healthy store leaves exactly 5, most-recent-first, with the oldest evicted. -/
theorem history_record_bounded (st : HistoryKV) (item : HistoryItem)
    (now now' t : String) (ops : List HistoryOp) (av wf : Bool)
    (hav : st.available = true) (hwf : st.writeFails = false) :
    getHistoryItems (saveHistoryItem st item now) now' =
      (item :: (getHistoryItems st now).filter (fun hh => hh.id ≠ item.id)).take
        MAX_HISTORY_ITEMS ∧
    (getHistoryItems (ops.foldl applyHistoryOp (emptyHistoryKV av wf)) t).length
      ≤ MAX_HISTORY_ITEMS ∧
    getHistoryItems (sixRecordOps.foldl applyHistoryOp (emptyHistoryKV true false)) t =
      [demoItem "6", demoItem "5", demoItem "4", demoItem "3", demoItem "2"] := by
  refine ⟨?_, ?_, ?_⟩
  · rw [saveHistoryItem, getHistoryItems_setItem _ _ _ _ hav hwf]
  · exact foldl_history_bound ops (emptyHistoryKV av wf)
      (fun u => by rw [getHistoryItems_empty]; simp [MAX_HISTORY_ITEMS]) t
  · rw [getHistoryItems_now_irrel _ t "x"]
    decide

/-- Witness for `history_record_bounded` on a concrete healthy store. -/
theorem history_record_bounded_witness :
    demoKV.available = true ∧ demoKV.writeFails = false ∧
    getHistoryItems (saveHistoryItem demoKV (demoItem "3") "t9") "t9" =
      (demoItem "3" :: (getHistoryItems demoKV "t9").filter
        (fun hh => hh.id ≠ (demoItem "3").id)).take MAX_HISTORY_ITEMS ∧
    (getHistoryItems (sixRecordOps.foldl applyHistoryOp (emptyHistoryKV false true)) "t").length
      ≤ MAX_HISTORY_ITEMS := by
  have h := history_record_bounded demoKV (demoItem "3") "t9" "t9" "t"
    sixRecordOps false true rfl rfl
  exact ⟨rfl, rfl, h.1, h.2.1⟩

-- =====================================
-- C8: persistence failures are absorbed
-- =====================================

/-- C8: no history/persistence operation lets a storage failure escape to
the caller: with storage unavailable, reads return the supplied fallback
and every write (generic or history-level) leaves the state untouched;
with storage available but the underlying write throwing (quota), the
wrapped operation returns the fallback and every write is silently
skipped. -/
theorem storage_failures_absorbed (α : Type) (stA stB : Store α) (key : String)
    (value fallback : α) (errMsg : String)
    (kvA kvB : HistoryKV) (item : HistoryItem) (id now : String)
    (hA : stA.available = false) (hB : stB.writeFails = true)
    (hkA : kvA.available = false) (hkB : kvB.writeFails = true) :
    safeStorageOperation false (Except.ok value) fallback = fallback ∧
    safeStorageOperation true (Except.error errMsg) fallback = fallback ∧
    getItem stA key fallback = fallback ∧
    setItem stA key value = stA ∧
    removeItem stA key = stA ∧
    setItem stB key value = stB ∧
    getHistoryItems kvA now = [] ∧
    saveHistoryItem kvA item now = kvA ∧
    removeHistoryItem kvA id now = kvA ∧
    toggleHistoryItemFavorite kvA id now = kvA ∧
    clearHistory kvA = kvA ∧
    saveHistoryItem kvB item now = kvB ∧
    removeHistoryItem kvB id now = kvB ∧
    toggleHistoryItemFavorite kvB id now = kvB := by
  refine ⟨rfl, rfl, getItem_unavailable _ _ _ hA, setItem_unavailable _ _ _ hA,
    removeItem_unavailable _ _ hA, setItem_writeFails _ _ _ hB,
    getHistoryItems_unavailable _ _ hkA,
    setItem_unavailable _ _ _ hkA, setItem_unavailable _ _ _ hkA,
    setItem_unavailable _ _ _ hkA, removeItem_unavailable _ _ hkA,
    setItem_writeFails _ _ _ hkB, setItem_writeFails _ _ _ hkB,
    setItem_writeFails _ _ _ hkB⟩

/-- Witness for `storage_failures_absorbed` on concrete degraded stores. -/
theorem storage_failures_absorbed_witness :
    (emptyHistoryKV false true).available = false ∧
    (emptyHistoryKV true true).writeFails = true ∧
    getHistoryItems (emptyHistoryKV false true) "t" = [] ∧
    saveHistoryItem (emptyHistoryKV false true) (demoItem "1") "t" =
      emptyHistoryKV false true ∧
    saveHistoryItem (emptyHistoryKV true true) (demoItem "1") "t" =
      emptyHistoryKV true true := by
  have h := storage_failures_absorbed ℕ ⟨false, true, []⟩ ⟨true, true, []⟩ "k"
    0 1 "boom" (emptyHistoryKV false true) (emptyHistoryKV true true)
    (demoItem "1") "1" "t" rfl rfl rfl rfl
  exact ⟨rfl, rfl, h.2.2.2.2.2.2.1, h.2.2.2.2.2.2.2.1, h.2.2.2.2.2.2.2.2.2.2.2.1⟩

-- =====================================
-- C9: toggle round-trip and remove
-- =====================================

theorem toggleFavoriteItem_twice_flag (id : String) (it : HistoryItem) :
    ((toggleFavoriteItem id (toggleFavoriteItem id it)).id,
      (toggleFavoriteItem id (toggleFavoriteItem id it)).isFavorite.getD false) =
    (it.id, it.isFavorite.getD false) := by
  unfold toggleFavoriteItem
  by_cases h : it.id = id
  · simp [h]
  · simp [h]

theorem all_filter_self {α : Type} (l : List α) (p : α → Bool) :
    (l.filter p).all p = true := by
  induction l with
  | nil => rfl
  | cons a l ih =>
    by_cases h : p a <;> simp [List.filter_cons, h, ih]

/-- C9: on a healthy store, toggling an item's favorite flag twice restores
every item's id and favorite value, and after `removeHistoryItem id` the
listed history contains no item with that id. -/
theorem history_toggle_remove (st : HistoryKV) (id now₁ now₂ now₃ : String)
    (hav : st.available = true) (hwf : st.writeFails = false) :
    (getHistoryItems
        (toggleHistoryItemFavorite (toggleHistoryItemFavorite st id now₁) id now₂)
        now₃).map (fun it => (it.id, it.isFavorite.getD false)) =
      (getHistoryItems st now₃).map (fun it => (it.id, it.isFavorite.getD false)) ∧
    (getHistoryItems (removeHistoryItem st id now₁) now₂).all
        (fun it => !(it.id = id)) = true := by
  constructor
  · have hAv1 : (toggleHistoryItemFavorite st id now₁).available = true := by
      rw [toggleHistoryItemFavorite, setItem_healthy _ _ _ hav hwf]; exact hav
    have hWf1 : (toggleHistoryItemFavorite st id now₁).writeFails = false := by
      rw [toggleHistoryItemFavorite, setItem_healthy _ _ _ hav hwf]; exact hwf
    have g2 : getHistoryItems
        (toggleHistoryItemFavorite (toggleHistoryItemFavorite st id now₁) id now₂) now₃ =
        (getHistoryItems (toggleHistoryItemFavorite st id now₁) now₂).map
          (toggleFavoriteItem id) := by
      conv_lhs => rw [toggleHistoryItemFavorite]
      rw [getHistoryItems_setItem _ _ _ _ hAv1 hWf1]
    have g1 : getHistoryItems (toggleHistoryItemFavorite st id now₁) now₂ =
        (getHistoryItems st now₁).map (toggleFavoriteItem id) := by
      rw [toggleHistoryItemFavorite, getHistoryItems_setItem _ _ _ _ hav hwf]
    rw [g2, g1, getHistoryItems_now_irrel st now₃ now₁, List.map_map, List.map_map]
    exact List.map_congr_left (fun a _ => toggleFavoriteItem_twice_flag id a)
  · rw [removeHistoryItem, getHistoryItems_setItem _ _ _ _ hav hwf]
    simpa only [ne_eq, decide_not] using
      all_filter_self (getHistoryItems st now₁) (fun it => !decide (it.id = id))

/-- Witness for `history_toggle_remove` on a concrete two-item store. -/
theorem history_toggle_remove_witness :
    demoKV.available = true ∧ demoKV.writeFails = false ∧
    (getHistoryItems
        (toggleHistoryItemFavorite (toggleHistoryItemFavorite demoKV "2" "u1") "2" "u2")
        "u3").map (fun it => (it.id, it.isFavorite.getD false)) =
      (getHistoryItems demoKV "u3").map (fun it => (it.id, it.isFavorite.getD false)) ∧
    (getHistoryItems (removeHistoryItem demoKV "2" "u1") "u2").all
        (fun it => !(it.id = "2")) = true := by
  have h := history_toggle_remove demoKV "2" "u1" "u2" "u3" rfl rfl
  exact ⟨rfl, rfl, h.1, h.2⟩

-- =====================================
-- C6: shape of a successful mock response
-- =====================================

/-- `randomChoice` with a draw in [0,1) picks an element of the array. -/
theorem randomChoice_mem (l : List String) (r : ℚ) (h0 : 0 ≤ r) (h1 : r < 1)
    (hne : l ≠ []) : randomChoice l r ∈ l := by
  have hlen : (0:ℚ) < l.length := by
    exact_mod_cast List.length_pos.mpr hne
  have hfl0 : 0 ≤ ⌊r * (l.length : ℚ)⌋ := Int.floor_nonneg.mpr (by positivity)
  have hflt : ⌊r * (l.length : ℚ)⌋ < (l.length : ℤ) := by
    apply Int.floor_lt.mpr
    push_cast
    calc r * (l.length : ℚ) < 1 * (l.length : ℚ) := by
          exact mul_lt_mul_of_pos_right h1 hlen
      _ = (l.length : ℚ) := one_mul _
  have hidx : (⌊r * (l.length : ℚ)⌋).toNat < l.length := by omega
  rw [randomChoice, List.getD_eq_getElem l _ hidx]
  exact List.getElem_mem hidx

/-- The processing-time draw lands in [1000, 2000] for draws in [0,1). -/
theorem mockProcessingTime_bounds (r : ℚ) (h0 : 0 ≤ r) (h1 : r < 1) :
    (1000:ℤ) ≤ mockProcessingTime r ∧ mockProcessingTime r ≤ 2000 := by
  unfold mockProcessingTime MIN_PROCESSING_TIME MAX_PROCESSING_TIME
  constructor
  · apply Int.le_floor.mpr
    push_cast
    nlinarith
  · have : ⌊r * ((2000:ℚ) - 1000 + 1) + 1000⌋ < 2001 := by
      apply Int.floor_lt.mpr
      push_cast
      nlinarith
    omega

/-- A validated request with no abort and no simulated error succeeds with
`createMockResponse`. -/
theorem generateImage_ok (request : GenerationRequest) (env : AttemptEnv)
    (h : requestWellFormed request) (hab : env.abortedAfterDelay = false)
    (herr : shouldSimulateError env.errorRand = false) :
    generateImage request env = .ok (createMockResponse request env) := by
  unfold generateImage
  rw [validate_ok_of_wellFormed _ _ h]
  simp [hab, herr]

/-- C6 (amended): a successful mock endpoint call echoes the request's
prompt and style unchanged, carries the freshly generated id, the current
timestamp and an image URL from the fixed pool, and reports a
`processingTime` that is a fresh uniform draw from [1000, 2000] —
independent of (and in general different from) the delay the call actually
waited, which is its own draw (`awaitedProcessingTime`). -/
theorem mock_success_shape (request : GenerationRequest) (env : AttemptEnv)
    (hwf : requestWellFormed request)
    (hab : env.abortedAfterDelay = false)
    (herr : ERROR_RATE ≤ env.errorRand)
    (hu0 : 0 ≤ env.urlRand) (hu1 : env.urlRand < 1)
    (ht0 : 0 ≤ env.respTimeRand) (ht1 : env.respTimeRand < 1) :
    generateImage request env = .ok (createMockResponse request env) ∧
    (createMockResponse request env).prompt = request.prompt ∧
    (createMockResponse request env).style = request.style ∧
    (createMockResponse request env).id = env.newId ∧
    (createMockResponse request env).createdAt = env.now ∧
    (createMockResponse request env).imageUrl ∈ MOCK_GENERATED_IMAGES ∧
    (createMockResponse request env).processingTime =
      some (mockProcessingTime env.respTimeRand) ∧
    (1000:ℤ) ≤ mockProcessingTime env.respTimeRand ∧
    mockProcessingTime env.respTimeRand ≤ 2000 := by
  have herr' : shouldSimulateError env.errorRand = false := by
    simp [shouldSimulateError, not_lt.mpr herr]
  obtain ⟨hlo, hhi⟩ := mockProcessingTime_bounds env.respTimeRand ht0 ht1
  refine ⟨generateImage_ok request env hwf hab herr', rfl, rfl, rfl, rfl, ?_, rfl, hlo, hhi⟩
  exact randomChoice_mem MOCK_GENERATED_IMAGES env.urlRand hu0 hu1 (by decide)

/-- Witness for `mock_success_shape` at a concrete request and environment. -/
theorem mock_success_shape_witness :
    requestWellFormed demoRequest ∧
    okEnv.abortedAfterDelay = false ∧
    ERROR_RATE ≤ okEnv.errorRand ∧
    generateImage demoRequest okEnv = .ok (createMockResponse demoRequest okEnv) ∧
    (createMockResponse demoRequest okEnv).prompt = demoRequest.prompt ∧
    (createMockResponse demoRequest okEnv).style = demoRequest.style ∧
    (createMockResponse demoRequest okEnv).imageUrl ∈ MOCK_GENERATED_IMAGES := by
  have h := mock_success_shape demoRequest okEnv (by decide) rfl
    (by norm_num [okEnv, ERROR_RATE]) (by norm_num [okEnv]) (by norm_num [okEnv])
    (by norm_num [okEnv]) (by norm_num [okEnv])
  exact ⟨by decide, rfl, by norm_num [okEnv, ERROR_RATE], h.1, h.2.1, h.2.2.1,
    h.2.2.2.2.2.1⟩

/-- Counterexample to C6 as stated: in the environment `okEnv` the call
waits 1000 ms (delay draw 0) but the returned `processingTime` is 1500 ms
(its own draw 1/2) — the field does not equal the delay actually waited. -/
theorem mock_processingTime_counterexample :
    generateImage demoRequest okEnv = .ok (createMockResponse demoRequest okEnv) ∧
    (createMockResponse demoRequest okEnv).processingTime = some 1500 ∧
    awaitedProcessingTime okEnv = 1000 ∧
    (createMockResponse demoRequest okEnv).processingTime ≠
      some (awaitedProcessingTime okEnv) := by
  have h1500 : mockProcessingTime ((1:ℚ)/2) = 1500 := by
    unfold mockProcessingTime MIN_PROCESSING_TIME MAX_PROCESSING_TIME
    rw [Int.floor_eq_iff]; norm_num
  have h1000 : mockProcessingTime 0 = 1000 := by
    unfold mockProcessingTime MIN_PROCESSING_TIME MAX_PROCESSING_TIME
    rw [Int.floor_eq_iff]; norm_num
  have hok : generateImage demoRequest okEnv =
      .ok (createMockResponse demoRequest okEnv) := by
    apply generateImage_ok demoRequest okEnv (by decide) rfl
    simp [shouldSimulateError, okEnv, ERROR_RATE]
    norm_num
  have hresp : (createMockResponse demoRequest okEnv).processingTime = some 1500 := by
    show some (mockProcessingTime okEnv.respTimeRand) = some 1500
    rw [show okEnv.respTimeRand = (1:ℚ)/2 from rfl, h1500]
  have hwait : awaitedProcessingTime okEnv = 1000 := by
    show mockProcessingTime okEnv.delayRand = 1000
    rw [show okEnv.delayRand = (0:ℚ) from rfl, h1000]
  refine ⟨hok, hresp, hwait, ?_⟩
  rw [hresp, hwait]
  decide

-- =====================================
-- C1: exhausted retries
-- =====================================

/-- A validated request with no abort and a simulated error fails with the
retryable mock overload error. -/
theorem generateImage_fail (request : GenerationRequest) (env : AttemptEnv)
    (h : requestWellFormed request) (hab : env.abortedAfterDelay = false)
    (herr : shouldSimulateError env.errorRand = true) :
    generateImage request env =
      .error (.api (createMockError env.msgRand env.now)) := by
  unfold generateImage
  rw [validate_ok_of_wellFormed _ _ h]
  simp [hab, herr]

/-- With every attempt failing retryably and no abort, the retry loop under
the default config makes exactly 3 endpoint calls, notifies `onRetry` after
attempts 1 and 2, waits the two backoff delays, and rejects with the
attempt-3 error. -/
theorem retry_three_failures (request : GenerationRequest) (envs : ℕ → AttemptEnv)
    (hwf : requestWellFormed request)
    (hfail : ∀ n, 1 ≤ n → n ≤ 3 →
      shouldSimulateError (envs n).errorRand = true ∧
      (envs n).abortedAfterDelay = false ∧ (envs n).abortedAtCatch = false) :
    generateImageWithRetry request RETRY_CONFIG envs =
      { result := .error (.api (createMockError (envs 3).msgRand (envs 3).now))
      , calls := 3
      , retryEvents := [(1, createMockError (envs 1).msgRand (envs 1).now),
                        (2, createMockError (envs 2).msgRand (envs 2).now)]
      , delays := [delayWithJitter RETRY_CONFIG 1 (envs 1).jitterRand,
                   delayWithJitter RETRY_CONFIG 2 (envs 2).jitterRand] } := by
  obtain ⟨e1, a1, c1⟩ := hfail 1 (by norm_num) (by norm_num)
  obtain ⟨e2, a2, c2⟩ := hfail 2 (by norm_num) (by norm_num)
  obtain ⟨e3, a3, c3⟩ := hfail 3 (by norm_num) (by norm_num)
  have g1 := generateImage_fail request (envs 1) hwf a1 e1
  have g2 := generateImage_fail request (envs 2) hwf a2 e2
  have g3 := generateImage_fail request (envs 3) hwf a3 e3
  have hmax : RETRY_CONFIG.maxAttempts = 3 := rfl
  show retryLoopGo request RETRY_CONFIG envs RETRY_CONFIG.maxAttempts 1 none = _
  rw [hmax, retryLoopGo, g1]
  simp only [hmax, c1, createMockError]
  norm_num
  rw [retryLoopGo, g2]
  simp only [hmax, c2, createMockError]
  norm_num
  rw [retryLoopGo, g3]
  simp only [hmax, c3, createMockError]
  norm_num [delayWithJitter]

/-- Driving `startGeneration` against an endpoint that fails every attempt:
the final store state is `error` with `retryCount = 2` (the two `onRetry`
notifications) and `canRetry = true` (since `2 < maxAttempts`), and the
history store is untouched. -/
theorem exhausted_run (s₀ : StoreState) (img freshId now : String)
    (envs : ℕ → AttemptEnv) (kv : HistoryKV)
    (hform : s₀.formValid = true) (himg : s₀.currentImage = some img)
    (hwf : requestWellFormed
      { imageDataUrl := img, prompt := jsTrim s₀.currentPrompt
      , style := s₀.currentStyle, requestId := some freshId })
    (hfail : ∀ n, 1 ≤ n → n ≤ 3 →
      shouldSimulateError (envs n).errorRand = true ∧
      (envs n).abortedAfterDelay = false ∧ (envs n).abortedAtCatch = false) :
    (startGenerationRun s₀ freshId envs now kv).1.generation.status = "error" ∧
    (startGenerationRun s₀ freshId envs now kv).1.generation.retryCount = 2 ∧
    (startGenerationRun s₀ freshId envs now kv).1.generation.canRetry = true ∧
    (startGenerationRun s₀ freshId envs now kv).2 = kv := by
  have hloop := retry_three_failures
    { imageDataUrl := img, prompt := jsTrim s₀.currentPrompt
    , style := s₀.currentStyle, requestId := some freshId } envs hwf hfail
  refine ⟨?_, ?_, ?_, ?_⟩ <;>
  · unfold startGenerationRun
    simp only [startGenerationBegin, hform, himg, Bool.not_true, Bool.false_eq_true,
      if_false]
    rw [hloop]
    simp [startGenerationFinish, applyProgressUpdates, applyRetryEvent,
      coerceCaughtError, createMockError, RETRY_CONFIG]

/-- C1 (amended): with the mock endpoint failing every attempt with a
retryable `MODEL_OVERLOADED` error and the default `maxAttempts = 3`, a
submission driven by `startGeneration` invokes the endpoint exactly 3
times and rejects with the attempt-3 retryable error; the resulting
generation state is `error` with `retryCount = 2` (only the two `onRetry`
notifications bump it) and therefore `canRetry = true`, since the store
recomputes `canRetry = retryable && retryCount < maxAttempts` with
`2 < 3`. -/
theorem submit_exhausted_retries (s₀ : StoreState) (img freshId now : String)
    (envs : ℕ → AttemptEnv) (kv : HistoryKV)
    (hform : s₀.formValid = true) (himg : s₀.currentImage = some img)
    (hwf : requestWellFormed
      { imageDataUrl := img, prompt := jsTrim s₀.currentPrompt
      , style := s₀.currentStyle, requestId := some freshId })
    (hfail : ∀ n, 1 ≤ n → n ≤ 3 →
      shouldSimulateError (envs n).errorRand = true ∧
      (envs n).abortedAfterDelay = false ∧ (envs n).abortedAtCatch = false) :
    (generateImageWithRetry
      { imageDataUrl := img, prompt := jsTrim s₀.currentPrompt
      , style := s₀.currentStyle, requestId := some freshId }
      RETRY_CONFIG envs).calls = 3 ∧
    (generateImageWithRetry
      { imageDataUrl := img, prompt := jsTrim s₀.currentPrompt
      , style := s₀.currentStyle, requestId := some freshId }
      RETRY_CONFIG envs).result =
      .error (.api (createMockError (envs 3).msgRand (envs 3).now)) ∧
    (startGenerationRun s₀ freshId envs now kv).1.generation.status = "error" ∧
    (startGenerationRun s₀ freshId envs now kv).1.generation.retryCount = 2 ∧
    (startGenerationRun s₀ freshId envs now kv).1.generation.canRetry = true ∧
    (startGenerationRun s₀ freshId envs now kv).2 = kv := by
  have hloop := retry_three_failures
    { imageDataUrl := img, prompt := jsTrim s₀.currentPrompt
    , style := s₀.currentStyle, requestId := some freshId } envs hwf hfail
  have hrun := exhausted_run s₀ img freshId now envs kv hform himg hwf hfail
  exact ⟨by rw [hloop], by rw [hloop], hrun.1, hrun.2.1, hrun.2.2.1, hrun.2.2.2⟩

/-- Witness for `submit_exhausted_retries` on the concrete store state and
an all-failing environment. -/
theorem submit_exhausted_retries_witness :
    demoStore.formValid = true ∧
    demoStore.currentImage = some "data:image/png;base64,abc" ∧
    (generateImageWithRetry
      { imageDataUrl := "data:image/png;base64,abc"
      , prompt := jsTrim "red dress on runway"
      , style := "editorial", requestId := some "r2" }
      RETRY_CONFIG (fun _ => failEnv)).calls = 3 ∧
    (startGenerationRun demoStore "r2" (fun _ => failEnv) "t"
      (emptyHistoryKV true false)).1.generation.status = "error" ∧
    (startGenerationRun demoStore "r2" (fun _ => failEnv) "t"
      (emptyHistoryKV true false)).1.generation.canRetry = true := by
  have h := submit_exhausted_retries demoStore "data:image/png;base64,abc" "r2" "t"
    (fun _ => failEnv) (emptyHistoryKV true false) rfl rfl (by decide)
    (fun n _ _ => ⟨by norm_num [shouldSimulateError, failEnv, ERROR_RATE], rfl, rfl⟩)
  exact ⟨rfl, rfl, h.1, h.2.2.1, h.2.2.2.2.1⟩

/-- Counterexample to C1 as stated: at a concrete all-failing submission the
final generation state has `canRetry = true`, not `false` as claimed. -/
theorem submit_exhausted_retries_counterexample :
    (startGenerationRun demoStore "r2" (fun _ => failEnv) "t"
      (emptyHistoryKV true false)).1.generation.canRetry ≠ false := by
  have h := exhausted_run demoStore "data:image/png;base64,abc" "r2" "t"
    (fun _ => failEnv) (emptyHistoryKV true false) rfl rfl (by decide)
    (fun n _ _ => ⟨by norm_num [shouldSimulateError, failEnv, ERROR_RATE], rfl, rfl⟩)
  rw [h.2.2.1]
  simp

-- =====================================
-- C5: cancelled submission
-- =====================================

/-- C5 (code evaluation): a submission cancelled while its processing delay
is pending never touches the history store — but its final state is
`"error"`, not `"aborted"`: `abortGeneration` sets `"aborted"` only
transiently, and when the aborted attempt's rejection settles the pending
`startGeneration`, its catch block coerces the abort into an `ApiError`
with message "Request aborted" and overwrites the status with `"error"`
and `canRetry = true`. -/
theorem cancelled_submission_state (s₀ : StoreState) (img freshId now : String)
    (envs : ℕ → AttemptEnv) (kv : HistoryKV)
    (hform : s₀.formValid = true) (himg : s₀.currentImage = some img)
    (hwf : requestWellFormed
      { imageDataUrl := img, prompt := jsTrim s₀.currentPrompt
      , style := s₀.currentStyle, requestId := some freshId })
    (hab : (envs 1).abortedAfterDelay = true) :
    (cancelledSubmission s₀ freshId envs now kv).1.generation.status = "error" ∧
    (cancelledSubmission s₀ freshId envs now kv).1.generation.status ≠ "aborted" ∧
    (cancelledSubmission s₀ freshId envs now kv).1.generation.error =
      some { name := "ApiError", message := "Request aborted"
           , code := "UNKNOWN_ERROR", retryable := true, timestamp := now } ∧
    (cancelledSubmission s₀ freshId envs now kv).1.generation.canRetry = true ∧
    (cancelledSubmission s₀ freshId envs now kv).2 = kv := by
  have hatt : generateImage
      { imageDataUrl := img, prompt := jsTrim s₀.currentPrompt
      , style := s₀.currentStyle, requestId := some freshId } (envs 1) =
      .error (.plain "Request aborted") := by
    unfold generateImage
    rw [validate_ok_of_wellFormed _ _ hwf]
    simp [hab]
  have hloop : generateImageWithRetry
      { imageDataUrl := img, prompt := jsTrim s₀.currentPrompt
      , style := s₀.currentStyle, requestId := some freshId } RETRY_CONFIG envs =
      { result := .error (.plain "Request aborted"), calls := 1
      , retryEvents := [], delays := [] } := by
    show retryLoopGo _ RETRY_CONFIG envs RETRY_CONFIG.maxAttempts 1 none = _
    rw [show RETRY_CONFIG.maxAttempts = 3 from rfl, retryLoopGo, hatt]
    by_cases hc : (envs 1).abortedAtCatch = true
    · simp [hc]
    · simp [hc]
  refine ⟨?_, ?_, ?_, ?_, ?_⟩ <;>
  · unfold cancelledSubmission
    simp only [startGenerationBegin, hform, himg, Bool.not_true, Bool.false_eq_true,
      if_false]
    rw [hloop]
    simp [startGenerationFinish, abortGeneration, applyProgressUpdates,
      applyRetryEvent, coerceCaughtError, RETRY_CONFIG]

/-- Witness for `cancelled_submission_state`: the concrete submission from
`demoStore` aborted during its processing delay. -/
theorem cancelled_submission_state_witness :
    demoStore.formValid = true ∧
    abortEnv.abortedAfterDelay = true ∧
    (cancelledSubmission demoStore "r3" (fun _ => abortEnv) "t"
      (emptyHistoryKV true false)).1.generation.status = "error" ∧
    (cancelledSubmission demoStore "r3" (fun _ => abortEnv) "t"
      (emptyHistoryKV true false)).1.generation.status ≠ "aborted" ∧
    (cancelledSubmission demoStore "r3" (fun _ => abortEnv) "t"
      (emptyHistoryKV true false)).2 = emptyHistoryKV true false := by
  have h := cancelled_submission_state demoStore "data:image/png;base64,abc" "r3" "t"
    (fun _ => abortEnv) (emptyHistoryKV true false) rfl rfl (by decide) rfl
  exact ⟨rfl, rfl, h.1, h.2.1, h.2.2.2.2⟩

-- =====================================
-- C7: user-initiated retry
-- =====================================

/-- C7 (amended): when the generation state has `canRetry = true` and a
current request, `retryGeneration` re-enters `generating` with progress
reset to 0 — but, because it delegates to `startGeneration`, the request is
rebuilt from the same form inputs with a fresh `requestId` and
`retryCount` is reset to 0: attempt counting restarts instead of
continuing from the current `retryCount`. -/
theorem retry_resets_counting (s : StoreState) (img freshId : String)
    (req : GenerationRequest)
    (hcur : s.generation.currentRequest = some req)
    (hcan : s.generation.canRetry = true)
    (hform : s.formValid = true) (himg : s.currentImage = some img) :
    (retryGenerationBegin s freshId).1.generation.status = "generating" ∧
    (retryGenerationBegin s freshId).1.generation.progress = 0 ∧
    (retryGenerationBegin s freshId).1.generation.retryCount = 0 ∧
    (retryGenerationBegin s freshId).1.generation.error = none ∧
    (retryGenerationBegin s freshId).2 =
      some { imageDataUrl := img, prompt := jsTrim s.currentPrompt
           , style := s.currentStyle, requestId := some freshId } := by
  refine ⟨?_, ?_, ?_, ?_, ?_⟩ <;>
  · unfold retryGenerationBegin
    rw [hcur, hcan]
    simp [startGenerationBegin, hform, himg]

/-- Witness for `retry_resets_counting` at the concrete error state. -/
theorem retry_resets_counting_witness :
    errorStore.generation.canRetry = true ∧
    errorStore.formValid = true ∧
    (retryGenerationBegin errorStore "r9").1.generation.status = "generating" ∧
    (retryGenerationBegin errorStore "r9").1.generation.progress = 0 ∧
    (retryGenerationBegin errorStore "r9").1.generation.retryCount = 0 := by
  have h := retry_resets_counting errorStore "data:image/png;base64,abc" "r9"
    { imageDataUrl := "data:image/png;base64,abc", prompt := "red dress on runway"
    , style := "editorial", requestId := some "r1" } rfl rfl rfl rfl
  exact ⟨rfl, rfl, h.1, h.2.1, h.2.2.1⟩

/-- Counterexample to C7 as stated: from an error state with
`retryCount = 2` and `canRetry = true`, the user retry leaves
`retryCount = 0`, not the claimed continuation from the current value. -/
theorem retry_resets_counting_counterexample :
    errorStore.generation.retryCount = 2 ∧
    errorStore.generation.canRetry = true ∧
    (retryGenerationBegin errorStore "r9").1.generation.retryCount = 0 ∧
    (retryGenerationBegin errorStore "r9").1.generation.retryCount ≠
      errorStore.generation.retryCount := by
  refine ⟨rfl, rfl, by decide, by decide⟩
